import Mathlib

/-!
Shallow embedding of the feedback repository's fusion, translation and
staleness/alert engine (files `integration/irds_interface.py`,
`integration/nachi_interface.py`, `integration/irds_consumer_example.py`).

Python floats are modelled as exact rationals (`ℚ`); Python `int()` is
truncation toward zero, `%` on floats follows Python's floored semantics.
-/

namespace Feedback

/-- Python `int(q)` on a float: truncation toward zero. -/
def pyInt (q : ℚ) : Int := if 0 ≤ q then ⌊q⌋ else ⌈q⌉

/-- Python `x % m` on floats (sign follows the divisor; here only used with
positive divisors): `x - m * floor (x / m)`. -/
def pymod (x m : ℚ) : ℚ := x - m * ⌊x / m⌋

/-- Python `round(q)`: round half to even (used only to state the spec's
`round(modifier*100)` formula; the code itself uses `int`). -/
def pyRound (q : ℚ) : Int :=
  let f := ⌊q⌋
  let r := q - f
  if r < 1 / 2 then f
  else if 1 / 2 < r then f + 1
  else if 2 ∣ f then f else f + 1

/-! ## `irds_interface.py` -/

/-- `PainLevel` enum (`irds_interface.py`, lines 24-30). -/
inductive PainLevel where
  | NONE
  | LIGHT
  | MODERATE
  | HIGH
  | CRITICAL
deriving DecidableEq

/-- `PainLevel(min(4, max(0, pain_level)))` — clamp an int into [0,4] and
look up the enum member (`get_modifiers`, line 157). -/
def painLevelOfInt (pain_level : Int) : PainLevel :=
  let c := min 4 (max 0 pain_level)
  if c = 0 then .NONE
  else if c = 1 then .LIGHT
  else if c = 2 then .MODERATE
  else if c = 3 then .HIGH
  else .CRITICAL

/-- A `GestureModifier` instance: the three level→modifier maps
(`irds_interface.py`, lines 122-138).  The Python dicts are total on the
five enum members, so they are modelled as total functions. -/
structure GestureModifier where
  speed_map : PainLevel → ℚ
  amplitude_map : PainLevel → ℚ
  force_map : PainLevel → ℚ

/-- `DEFAULT_SPEED_MAP` (lines 98-104). -/
def DEFAULT_SPEED_MAP : PainLevel → ℚ
  | .NONE => 1
  | .LIGHT => 4/5
  | .MODERATE => 1/2
  | .HIGH => 1/5
  | .CRITICAL => 0

/-- `DEFAULT_AMPLITUDE_MAP` (lines 106-112). -/
def DEFAULT_AMPLITUDE_MAP : PainLevel → ℚ
  | .NONE => 1
  | .LIGHT => 9/10
  | .MODERATE => 7/10
  | .HIGH => 1/2
  | .CRITICAL => 0

/-- `DEFAULT_FORCE_MAP` (lines 114-120). -/
def DEFAULT_FORCE_MAP : PainLevel → ℚ
  | .NONE => 1
  | .LIGHT => 17/20
  | .MODERATE => 3/5
  | .HIGH => 3/10
  | .CRITICAL => 0

/-- `GestureModifier()` with default maps. -/
def GestureModifier.default : GestureModifier :=
  { speed_map := DEFAULT_SPEED_MAP
    amplitude_map := DEFAULT_AMPLITUDE_MAP
    force_map := DEFAULT_FORCE_MAP }

/-- The dict returned by `GestureModifier.get_modifiers`. -/
structure ModifierDict where
  speed_modifier : ℚ
  amplitude_modifier : ℚ
  force_modifier : ℚ
  should_pause : Bool
  should_stop : Bool
deriving DecidableEq

/-- `GestureModifier.get_modifiers` (`irds_interface.py`, lines 140-174). -/
def GestureModifier.get_modifiers (g : GestureModifier)
    (pain_level : Int) (pain_score : ℚ) : ModifierDict :=
  let level := painLevelOfInt pain_level
  let speed := g.speed_map level
  let amplitude := g.amplitude_map level
  let force := g.force_map level
  let score_factor := 1 - (pymod pain_score 20) / 100
  { speed_modifier := speed * score_factor
    amplitude_modifier := amplitude * score_factor
    force_modifier := force * score_factor
    should_pause := decide (level = PainLevel.HIGH)
    should_stop := decide (level = PainLevel.CRITICAL) }

/-- The heterogeneous `details` dict attached to a `PainFeedback`:
either the per-sensor entries or the fused combination
(`fuse_feedback`, lines 689-693). -/
inductive Details where
  | entries : List (String × ℚ) → Details
  | fusedOf : Option Details → Option Details → ℚ → ℚ → Details

/-- The `PainFeedback` dataclass (`irds_interface.py`, lines 33-67). -/
structure PainFeedback where
  timestamp : ℚ
  pain_level : Int
  pain_level_name : String
  pain_score : ℚ
  source : String
  confidence : ℚ
  speed_modifier : ℚ
  amplitude_modifier : ℚ
  force_modifier : ℚ
  should_pause : Bool
  should_stop : Bool
  details : Option Details

/-- `GestureModifier.create_feedback` (lines 176-214); `time.time()` is the
explicit `now` argument. -/
def GestureModifier.create_feedback (g : GestureModifier) (now : ℚ)
    (pain_level : Int) (pain_level_name : String) (pain_score : ℚ)
    (source : String) (confidence : ℚ) (details : Option Details) :
    PainFeedback :=
  let modifiers := g.get_modifiers pain_level pain_score
  { timestamp := now
    pain_level := pain_level
    pain_level_name := pain_level_name
    pain_score := pain_score
    source := source
    confidence := confidence
    speed_modifier := modifiers.speed_modifier
    amplitude_modifier := modifiers.amplitude_modifier
    force_modifier := modifiers.force_modifier
    should_pause := modifiers.should_pause
    should_stop := modifiers.should_stop
    details := details }

/-- `level_names[min(fused_level, 4)]` for levels in the normal 0-4 range
(`fuse_feedback`, lines 674-675). -/
def fusedLevelName (fused_level : Int) : String :=
  if 4 ≤ fused_level then "CRITICAL"
  else if fused_level = 3 then "HIGH"
  else if fused_level = 2 then "MODERATE"
  else if fused_level = 1 then "LIGHT"
  else "NONE"

/-- `fuse_feedback` (`irds_interface.py`, lines 607-694).

The Python function mutates its argument in the single-input branches
(`face_feedback.source = 'fused'` and the symmetric line) and returns the
very same object; the model therefore returns, besides the result, the
post-call state of each input object. -/
def fuse_feedback (now : ℚ)
    (piezo_feedback face_feedback : Option PainFeedback)
    (piezo_weight face_weight : ℚ) :
    PainFeedback × Option PainFeedback × Option PainFeedback :=
  match piezo_feedback, face_feedback with
  | none, none =>
      (GestureModifier.default.create_feedback now 0 "NONE" 0 "fused" 0 none,
       none, none)
  | none, some f =>
      let f' := { f with source := "fused" }
      (f', none, some f')
  | some p, none =>
      let p' := { p with source := "fused" }
      (p', some p', none)
  | some p, some f =>
      let total_weight := piezo_weight + face_weight
      let piezo_w := piezo_weight / total_weight
      let face_w := face_weight / total_weight
      let fused_score :=
        p.pain_score * piezo_w * p.confidence +
        f.pain_score * face_w * f.confidence
      let fused_level := max p.pain_level f.pain_level
      let fused_speed := min p.speed_modifier f.speed_modifier
      let fused_amplitude := min p.amplitude_modifier f.amplitude_modifier
      let fused_force := min p.force_modifier f.force_modifier
      let fused_confidence := p.confidence * piezo_w + f.confidence * face_w
      ({ timestamp := now
         pain_level := fused_level
         pain_level_name := fusedLevelName fused_level
         pain_score := fused_score
         source := "fused"
         confidence := fused_confidence
         speed_modifier := fused_speed
         amplitude_modifier := fused_amplitude
         force_modifier := fused_force
         should_pause := p.should_pause || f.should_pause
         should_stop := p.should_stop || f.should_stop
         details := some (Details.fusedOf p.details f.details piezo_w face_w) },
       some p, some f)

/-! ## `nachi_interface.py` -/

/-- The `NachiCommand` dataclass (`nachi_interface.py`, lines 37-63).
The timestamp type is a parameter: it is the float's numeric value (`ℚ`)
for the translator, and the float64 bit pattern (`Nat < 2^64`) when the
command is packed into its 16-byte wire format (`struct.pack '<d'` reads
and writes the bit pattern verbatim). -/
structure NachiCommand (T : Type) where
  speed_override : Int
  motion_scale : Int
  force_limit : Int
  external_pause : Bool
  external_stop : Bool
  enable_motion : Bool
  timestamp : T
  source : String
  confidence : ℚ
  pain_level : Int
deriving DecidableEq

/-- `NachiCommand.to_bytes` (`nachi_interface.py`, lines 71-99):
`struct.pack('<BBBBHHd', speed, motion, force, flags, pain, int(conf*1000), ts)`.
`struct.pack` raises when a field is out of range for its format code
(`none` here); otherwise the 16 little-endian bytes. -/
def NachiCommand.to_bytes (c : NachiCommand Nat) : Option (List Nat) :=
  let flags : Nat :=
    (if c.external_pause then 1 else 0) +
    (if c.external_stop then 2 else 0) +
    (if c.enable_motion then 4 else 0)
  let confEnc : Int := pyInt (c.confidence * 1000)
  if 0 ≤ c.speed_override ∧ c.speed_override ≤ 255 ∧
     0 ≤ c.motion_scale ∧ c.motion_scale ≤ 255 ∧
     0 ≤ c.force_limit ∧ c.force_limit ≤ 255 ∧
     0 ≤ c.pain_level ∧ c.pain_level ≤ 65535 ∧
     0 ≤ confEnc ∧ confEnc ≤ 65535 ∧ c.timestamp < 2 ^ 64 then
    some [c.speed_override.toNat, c.motion_scale.toNat, c.force_limit.toNat,
          flags,
          c.pain_level.toNat % 256, c.pain_level.toNat / 256,
          confEnc.toNat % 256, confEnc.toNat / 256,
          c.timestamp % 256, c.timestamp / 256 % 256,
          c.timestamp / 256 ^ 2 % 256, c.timestamp / 256 ^ 3 % 256,
          c.timestamp / 256 ^ 4 % 256, c.timestamp / 256 ^ 5 % 256,
          c.timestamp / 256 ^ 6 % 256, c.timestamp / 256 ^ 7 % 256]
  else none

/-- `NachiCommand.from_bytes` (`nachi_interface.py`, lines 101-117):
`struct.unpack('<BBBBHHd', data)` raises unless `data` is exactly 16
bytes; the decoded command always carries `source='pain_feedback'`. -/
def NachiCommand.from_bytes (data : List Nat) : Option (NachiCommand Nat) :=
  match data with
  | [b0, b1, b2, b3, b4, b5, b6, b7, b8, b9, b10, b11, b12, b13, b14, b15] =>
    some { speed_override := (b0 : Int)
           motion_scale := (b1 : Int)
           force_limit := (b2 : Int)
           external_pause := b3 &&& 1 != 0
           external_stop := b3 &&& 2 != 0
           enable_motion := b3 &&& 4 != 0
           timestamp := b8 + 256 * b9 + 256 ^ 2 * b10 + 256 ^ 3 * b11 +
                        256 ^ 4 * b12 + 256 ^ 5 * b13 + 256 ^ 6 * b14 +
                        256 ^ 7 * b15
           source := "pain_feedback"
           confidence := ((b6 : ℚ) + 256 * b7) / 1000
           pain_level := (b4 : Int) + 256 * b5 }
  | _ => none

/-- The `irds_feedback` dict passed to `translate`: every key may be
absent (`dict.get` with a default). -/
structure IrdsFeedbackDict where
  speed_modifier : Option ℚ := none
  amplitude_modifier : Option ℚ := none
  force_modifier : Option ℚ := none
  should_pause : Option Bool := none
  should_stop : Option Bool := none
  timestamp : Option ℚ := none
  confidence : Option ℚ := none
  pain_level : Option Int := none

/-- `IRDSToNachiTranslator` construction parameters
(`nachi_interface.py`, lines 132-148). -/
structure IRDSToNachiTranslator where
  min_speed : Int := 5
  min_motion : Int := 10
  min_force : Int := 10

/-- `IRDSToNachiTranslator.translate` (`nachi_interface.py`, lines
150-186); `time.time()` (the default for a missing timestamp) is the
explicit `now` argument. -/
def IRDSToNachiTranslator.translate (t : IRDSToNachiTranslator)
    (irds_feedback : IrdsFeedbackDict) (now : ℚ) : NachiCommand ℚ :=
  let speed_mod := irds_feedback.speed_modifier.getD 1
  let amp_mod := irds_feedback.amplitude_modifier.getD 1
  let force_mod := irds_feedback.force_modifier.getD 1
  let speed_override := max t.min_speed (pyInt (speed_mod * 100))
  let motion_scale := max t.min_motion (pyInt (amp_mod * 100))
  let force_limit := max t.min_force (pyInt (force_mod * 100))
  let stop := irds_feedback.should_stop.getD false
  let speed_override := if stop then 0 else speed_override
  let motion_scale := if stop then 0 else motion_scale
  { speed_override := speed_override
    motion_scale := motion_scale
    force_limit := force_limit
    external_pause := irds_feedback.should_pause.getD false
    external_stop := stop
    enable_motion := !stop
    timestamp := irds_feedback.timestamp.getD now
    source := "pain_feedback"
    confidence := irds_feedback.confidence.getD 0
    pain_level := irds_feedback.pain_level.getD 0 }

/-! ## `irds_consumer_example.py` -/

/-- The `GestureModifiers` dataclass with its field defaults
(`irds_consumer_example.py`, lines 26-37). -/
structure GestureModifiers where
  speed_modifier : ℚ := 1
  amplitude_modifier : ℚ := 1
  force_modifier : ℚ := 1
  should_pause : Bool := false
  should_stop : Bool := false
  pain_level : Int := 0
  pain_score : ℚ := 0
  timestamp : ℚ := 0
  confidence : ℚ := 0
deriving DecidableEq

/-- The state of a `FeedbackConsumer` relevant to `get_modifiers`:
constructor arguments plus `_modifiers` and `_last_update`
(`irds_consumer_example.py`, lines 65-91; `_last_update` starts at 0 and
is set to `time.time()` on every accepted update). -/
structure FeedbackConsumer where
  default_on_missing : Bool := true
  stale_threshold : ℚ := 2
  modifiers : GestureModifiers := {}
  last_update : ℚ := 0

/-- `FeedbackConsumer.get_modifiers` (`irds_consumer_example.py`, lines
193-231); `time.time()` is the explicit `now` argument. -/
def FeedbackConsumer.get_modifiers (c : FeedbackConsumer) (now : ℚ) :
    GestureModifiers :=
  if c.last_update > 0 ∧ now - c.last_update > c.stale_threshold ∧
     c.default_on_missing then
    { speed_modifier := 1/2
      amplitude_modifier := 1/2
      force_modifier := 1/2
      should_pause := true
      confidence := 0 }
  else if c.last_update = 0 ∧ c.default_on_missing then
    {}
  else
    c.modifiers

/-- The callback-firing logic of `FeedbackConsumer._update_modifiers`
(`irds_consumer_example.py`, lines 186-191), with both callbacks set:
given the previous and the new pain level, whether (`on_high_pain` fired,
`on_critical_pain` fired).  Note the `elif`: when the critical branch
fires, the high branch is skipped. -/
def alertStep (old_level new_level : Int) : Bool × Bool :=
  if 4 ≤ new_level ∧ old_level < 4 then (false, true)
  else if 3 ≤ new_level ∧ old_level < 3 then (true, false)
  else (false, false)

/-- Run a sequence of `_update_modifiers` calls (only the pain levels
matter for the callbacks) from a given current level, counting how often
each callback fired: (`on_high_pain` count, `on_critical_pain` count). -/
def runAlerts : Int → List Int → Nat × Nat
  | _, [] => (0, 0)
  | old_level, new_level :: rest =>
      let fired := alertStep old_level new_level
      let tail := runAlerts new_level rest
      ((if fired.1 then 1 else 0) + tail.1,
       (if fired.2 then 1 else 0) + tail.2)

/-- Number of transitions from a level `< 3` to a level `≥ 3` in a level
sequence (the claim's firing rule for `on_high_pain`). -/
def countHighTransitions : Int → List Int → Nat
  | _, [] => 0
  | old_level, new_level :: rest =>
      (if old_level < 3 ∧ 3 ≤ new_level then 1 else 0) +
      countHighTransitions new_level rest

/-- Number of transitions from a level `< 4` to a level `≥ 4` in a level
sequence (the firing rule for `on_critical_pain`). -/
def countCriticalTransitions : Int → List Int → Nat
  | _, [] => 0
  | old_level, new_level :: rest =>
      (if old_level < 4 ∧ 4 ≤ new_level then 1 else 0) +
      countCriticalTransitions new_level rest

/-- Number of transitions from `< 3` to `≥ 3` that are not also
transitions from `< 4` to `≥ 4` (i.e. arrivals at level 3 from below,
but not jumps straight past it): the rule the code actually implements
for `on_high_pain` because of the `elif`. -/
def countHighOnlyTransitions : Int → List Int → Nat
  | _, [] => 0
  | old_level, new_level :: rest =>
      (if old_level < 3 ∧ 3 ≤ new_level ∧ ¬(old_level < 4 ∧ 4 ≤ new_level)
       then 1 else 0) +
      countHighOnlyTransitions new_level rest

/-! ## Theorems -/

/-- C1: the staleness fail-safe.  The claim says a consumer with
`default_on_missing` set returns the conservative defaults
(`0.5/0.5/0.5, should_pause=true, confidence=0`) both when the data is
stale and when no update has ever arrived.  The code does so for stale
data, but a consumer that has never received an update (the `{}` state,
`_last_update = 0`) returns the full-permission dataclass defaults:
`speed_modifier = 1.0` and `should_pause = false`, evaluated here at
`now = 100` with the default 2.0s threshold long exceeded. -/
theorem consumer_never_updated_returns_full_speed :
    (FeedbackConsumer.get_modifiers {} 100).speed_modifier = 1 ∧
    (FeedbackConsumer.get_modifiers {} 100).amplitude_modifier = 1 ∧
    (FeedbackConsumer.get_modifiers {} 100).force_modifier = 1 ∧
    (FeedbackConsumer.get_modifiers {} 100).should_pause = false := by
  decide

/-- C4: when the input feedback has `should_stop` set, `translate` forces
`speed_override = 0` and `motion_scale = 0` past any floors, disables
motion, raises the external stop, and still keeps `force_limit` at or
above its floor `min_force`. -/
theorem translate_stop_overrides_floors (t : IRDSToNachiTranslator)
    (fb : IrdsFeedbackDict) (now : ℚ) (h : fb.should_stop = some true) :
    (t.translate fb now).speed_override = 0 ∧
    (t.translate fb now).motion_scale = 0 ∧
    (t.translate fb now).enable_motion = false ∧
    (t.translate fb now).external_stop = true ∧
    t.min_force ≤ (t.translate fb now).force_limit := by
  refine ⟨?_, ?_, ?_, ?_, ?_⟩ <;>
    simp [IRDSToNachiTranslator.translate, h, le_max_left]

/-- Witness for C4 at the scenario of the claim: `min_speed = 5`,
`should_stop = true`, stop wins over the floor. -/
theorem translate_stop_overrides_floors_witness :
    (IRDSToNachiTranslator.translate { min_speed := 5 }
        { should_stop := some true } 0).speed_override = 0 ∧
    (IRDSToNachiTranslator.translate { min_speed := 5 }
        { should_stop := some true } 0).motion_scale = 0 ∧
    (IRDSToNachiTranslator.translate { min_speed := 5 }
        { should_stop := some true } 0).enable_motion = false ∧
    (IRDSToNachiTranslator.translate { min_speed := 5 }
        { should_stop := some true } 0).external_stop = true ∧
    ({ min_speed := 5 : IRDSToNachiTranslator }).min_force ≤
      (IRDSToNachiTranslator.translate { min_speed := 5 }
        { should_stop := some true } 0).force_limit :=
  translate_stop_overrides_floors { min_speed := 5 }
    { should_stop := some true } 0 rfl

/-- C6 counterexample: the claim says each modifier is converted via
`max(floor_i, round(m*100))`; the code uses Python `int` (truncation),
so at `m = 0.999` the command carries 99 where rounding would give 100. -/
theorem translate_truncates_not_rounds :
    ¬ ((IRDSToNachiTranslator.translate {} { speed_modifier := some (999/1000) }
          0).speed_override =
        max ({} : IRDSToNachiTranslator).min_speed (pyRound (999/1000 * 100))) := by
  have hcode : (IRDSToNachiTranslator.translate {}
      { speed_modifier := some (999/1000) } 0).speed_override = 99 := by
    simp [IRDSToNachiTranslator.translate, pyInt]
    norm_num
  have hround : pyRound ((999 : ℚ)/1000 * 100) = 100 := by
    simp only [pyRound]
    norm_num
  have hspec : max ({} : IRDSToNachiTranslator).min_speed
      (pyRound (999/1000 * 100)) = 100 := by
    rw [hround]
    decide
  omega

/-- C6 amended: when `should_stop` is absent or false, each `[0,1]`
modifier `m` becomes the integer percentage
`max(floor_i, trunc(m·100))` — truncation toward zero (Python `int`),
not rounding. -/
theorem translate_percentage_formula (t : IRDSToNachiTranslator)
    (fb : IrdsFeedbackDict) (now : ℚ)
    (hstop : fb.should_stop.getD false = false) :
    (t.translate fb now).speed_override =
      max t.min_speed (pyInt (fb.speed_modifier.getD 1 * 100)) ∧
    (t.translate fb now).motion_scale =
      max t.min_motion (pyInt (fb.amplitude_modifier.getD 1 * 100)) ∧
    (t.translate fb now).force_limit =
      max t.min_force (pyInt (fb.force_modifier.getD 1 * 100)) := by
  refine ⟨?_, ?_, ?_⟩ <;> simp [IRDSToNachiTranslator.translate, hstop]

/-- Witness for C6 (amended) at `m = 0.999` on the speed channel:
`max(5, trunc(99.9)) = 99`. -/
theorem translate_percentage_formula_witness :
    (IRDSToNachiTranslator.translate {} { speed_modifier := some (999/1000) }
        0).speed_override =
      max ({} : IRDSToNachiTranslator).min_speed (pyInt (999/1000 * 100)) ∧
    (IRDSToNachiTranslator.translate {} { speed_modifier := some (999/1000) }
        0).motion_scale =
      max ({} : IRDSToNachiTranslator).min_motion (pyInt ((1 : ℚ) * 100)) ∧
    (IRDSToNachiTranslator.translate {} { speed_modifier := some (999/1000) }
        0).force_limit =
      max ({} : IRDSToNachiTranslator).min_force (pyInt ((1 : ℚ) * 100)) :=
  translate_percentage_formula {} { speed_modifier := some (999/1000) } 0 rfl

/-- C7: the pause/stop flags returned by `GestureModifier.get_modifiers`
depend only on the clamped pain level — pause exactly at clamped level 3
(HIGH), stop exactly at clamped level 4 (CRITICAL) — and any integer
level is clamped into `[0,4]` rather than rejected. -/
theorem get_modifiers_flags_from_level (g : GestureModifier) (l : Int)
    (s : ℚ) :
    (g.get_modifiers l s).should_pause = decide (min 4 (max 0 l) = 3) ∧
    (g.get_modifiers l s).should_stop = decide (min 4 (max 0 l) = 4) ∧
    0 ≤ min 4 (max 0 l) ∧ min 4 (max 0 l) ≤ 4 := by
  have h : min 4 (max 0 l) = 0 ∨ min 4 (max 0 l) = 1 ∨
      min 4 (max 0 l) = 2 ∨ min 4 (max 0 l) = 3 ∨ min 4 (max 0 l) = 4 := by
    omega
  unfold GestureModifier.get_modifiers painLevelOfInt
  rcases h with h | h | h | h | h <;> simp [h]

/-- C10: a feedback dict missing all modifier and flag keys translates
(with the default floors) to the full-permission command: 100% on all
three channels, no pause, no stop, motion enabled. -/
theorem translate_missing_keys_full_permission (fb : IrdsFeedbackDict)
    (now : ℚ)
    (h1 : fb.speed_modifier = none) (h2 : fb.amplitude_modifier = none)
    (h3 : fb.force_modifier = none) (h4 : fb.should_pause = none)
    (h5 : fb.should_stop = none) :
    (IRDSToNachiTranslator.translate {} fb now).speed_override = 100 ∧
    (IRDSToNachiTranslator.translate {} fb now).motion_scale = 100 ∧
    (IRDSToNachiTranslator.translate {} fb now).force_limit = 100 ∧
    (IRDSToNachiTranslator.translate {} fb now).external_pause = false ∧
    (IRDSToNachiTranslator.translate {} fb now).external_stop = false ∧
    (IRDSToNachiTranslator.translate {} fb now).enable_motion = true := by
  refine ⟨?_, ?_, ?_, ?_, ?_, ?_⟩ <;>
    simp [IRDSToNachiTranslator.translate, h1, h2, h3, h4, h5, pyInt]

/-- Witness for C10 at the empty dict. -/
theorem translate_missing_keys_full_permission_witness :
    (IRDSToNachiTranslator.translate {} {} 0).speed_override = 100 ∧
    (IRDSToNachiTranslator.translate {} {} 0).motion_scale = 100 ∧
    (IRDSToNachiTranslator.translate {} {} 0).force_limit = 100 ∧
    (IRDSToNachiTranslator.translate {} {} 0).external_pause = false ∧
    (IRDSToNachiTranslator.translate {} {} 0).external_stop = false ∧
    (IRDSToNachiTranslator.translate {} {} 0).enable_motion = true :=
  translate_missing_keys_full_permission {} 0 rfl rfl rfl rfl rfl

/-- C2: two-input fusion.  With both signals present and positive
weights, the fused signal takes the max pain level, the element-wise min
of the three modifiers, the OR of the two flags, and the
confidence-discounted weighted score and weighted confidence, with the
weights renormalized to sum to 1. -/
theorem fuse_feedback_both_present (now : ℚ) (a b : PainFeedback)
    (pw fw : ℚ) (hpw : 0 < pw) (hfw : 0 < fw) :
    (fuse_feedback now (some a) (some b) pw fw).1.pain_level =
      max a.pain_level b.pain_level ∧
    (fuse_feedback now (some a) (some b) pw fw).1.speed_modifier =
      min a.speed_modifier b.speed_modifier ∧
    (fuse_feedback now (some a) (some b) pw fw).1.amplitude_modifier =
      min a.amplitude_modifier b.amplitude_modifier ∧
    (fuse_feedback now (some a) (some b) pw fw).1.force_modifier =
      min a.force_modifier b.force_modifier ∧
    (fuse_feedback now (some a) (some b) pw fw).1.should_pause =
      (a.should_pause || b.should_pause) ∧
    (fuse_feedback now (some a) (some b) pw fw).1.should_stop =
      (a.should_stop || b.should_stop) ∧
    (fuse_feedback now (some a) (some b) pw fw).1.pain_score =
      a.pain_score * (pw / (pw + fw)) * a.confidence +
      b.pain_score * (fw / (pw + fw)) * b.confidence ∧
    (fuse_feedback now (some a) (some b) pw fw).1.confidence =
      a.confidence * (pw / (pw + fw)) + b.confidence * (fw / (pw + fw)) ∧
    pw / (pw + fw) + fw / (pw + fw) = 1 := by
  refine ⟨rfl, rfl, rfl, rfl, rfl, rfl, rfl, rfl, ?_⟩
  rw [div_add_div_same]
  exact div_self (by positivity)

/-- A concrete piezo-side signal used to instantiate the fusion
theorems. -/
def piezoSample : PainFeedback :=
  { timestamp := 1
    pain_level := 2
    pain_level_name := "MODERATE"
    pain_score := 40
    source := "piezo"
    confidence := 1
    speed_modifier := 1/2
    amplitude_modifier := 7/10
    force_modifier := 3/5
    should_pause := false
    should_stop := false
    details := none }

/-- A concrete face-side signal used to instantiate the fusion
theorems. -/
def faceSample : PainFeedback :=
  { timestamp := 1
    pain_level := 3
    pain_level_name := "SEVERE"
    pain_score := 55
    source := "face"
    confidence := 9/10
    speed_modifier := 1/5
    amplitude_modifier := 1/2
    force_modifier := 3/10
    should_pause := true
    should_stop := false
    details := none }

/-- Witness for C2 at two concrete signals with weights 1 and 1. -/
theorem fuse_feedback_both_present_witness :
    (fuse_feedback 5 (some piezoSample) (some faceSample) 1 1).1.pain_level =
      max piezoSample.pain_level faceSample.pain_level ∧
    (fuse_feedback 5 (some piezoSample) (some faceSample) 1 1).1.speed_modifier =
      min piezoSample.speed_modifier faceSample.speed_modifier ∧
    (fuse_feedback 5 (some piezoSample) (some faceSample) 1 1).1.amplitude_modifier =
      min piezoSample.amplitude_modifier faceSample.amplitude_modifier ∧
    (fuse_feedback 5 (some piezoSample) (some faceSample) 1 1).1.force_modifier =
      min piezoSample.force_modifier faceSample.force_modifier ∧
    (fuse_feedback 5 (some piezoSample) (some faceSample) 1 1).1.should_pause =
      (piezoSample.should_pause || faceSample.should_pause) ∧
    (fuse_feedback 5 (some piezoSample) (some faceSample) 1 1).1.should_stop =
      (piezoSample.should_stop || faceSample.should_stop) ∧
    (fuse_feedback 5 (some piezoSample) (some faceSample) 1 1).1.pain_score =
      piezoSample.pain_score * (1 / (1 + 1)) * piezoSample.confidence +
      faceSample.pain_score * (1 / (1 + 1)) * faceSample.confidence ∧
    (fuse_feedback 5 (some piezoSample) (some faceSample) 1 1).1.confidence =
      piezoSample.confidence * (1 / (1 + 1)) +
      faceSample.confidence * (1 / (1 + 1)) ∧
    (1 : ℚ) / (1 + 1) + 1 / (1 + 1) = 1 :=
  fuse_feedback_both_present 5 piezoSample faceSample 1 1 one_pos one_pos

/-- C5 counterexample: feeding the single update `[4]` to a consumer at
level 0 is a transition from `< 3` to `≥ 3`, so the claim requires
`on_high_pain` to fire once; because of the `elif` the code fires only
`on_critical_pain` and `on_high_pain` never fires. -/
theorem alerts_skip_high_on_direct_jump :
    ¬ (runAlerts 0 [4] =
        (countHighTransitions 0 [4], countCriticalTransitions 0 [4])) := by
  decide

/-- C5 amended: `on_critical_pain` fires exactly once at each transition
from `< 4` to `≥ 4`; `on_high_pain` fires exactly once at each
transition from `< 3` to `≥ 3` that is not simultaneously a critical
transition (when the level jumps from `< 3` straight to `≥ 4`, only the
critical callback fires).  Repeated updates at a level never re-fire,
and the sequence `[1,2,3,3,2,4,4,1]` fires each callback exactly once. -/
theorem runAlerts_edge_triggered (start : Int) (levels : List Int) :
    runAlerts start levels =
      (countHighOnlyTransitions start levels,
       countCriticalTransitions start levels) ∧
    runAlerts 0 [1, 2, 3, 3, 2, 4, 4, 1] = (1, 1) := by
  refine ⟨?_, by decide⟩
  induction levels generalizing start with
  | nil => rfl
  | cons new rest ih =>
      simp only [runAlerts, countHighOnlyTransitions,
        countCriticalTransitions, alertStep, ih new]
      split_ifs <;> simp_all [Prod.ext_iff]

/-- C8: single-input fusion relabels the present signal as `fused` and
keeps every other field, but it does so by mutating the input object in
place (`face_feedback.source = 'fused'`) and returning that same object,
so the input — a `PainSignal` the spec declares immutable once
produced — is changed by the call: afterwards its `source` no longer
reads `"face"`. -/
theorem fuse_single_input_relabels_and_mutates :
    (fuse_feedback 11 none (some faceSample) (3/5) (2/5)).1 =
      { faceSample with source := "fused" } ∧
    (fuse_feedback 11 none (some faceSample) (3/5) (2/5)).2.2 =
      some { faceSample with source := "fused" } ∧
    (fuse_feedback 11 none (some faceSample) (3/5) (2/5)).2.2 ≠
      some faceSample ∧
    faceSample.source = "face" := by
  refine ⟨rfl, rfl, ?_, rfl⟩
  intro h
  have hsrc := congrArg (Option.map PainFeedback.source) h
  simp [fuse_feedback, faceSample] at hsrc

/-- C9: under the default maps, each of the three modifiers returned by
`get_modifiers` is non-increasing as the pain level increases through
`{0..4}` (with `level + 1` clamped at 4 by the mapper itself), for every
fixed pain score. -/
theorem default_modifiers_monotone (l : Int) (s : ℚ)
    (h0 : 0 ≤ l) (h4 : l ≤ 4) :
    (GestureModifier.default.get_modifiers (l + 1) s).speed_modifier ≤
      (GestureModifier.default.get_modifiers l s).speed_modifier ∧
    (GestureModifier.default.get_modifiers (l + 1) s).amplitude_modifier ≤
      (GestureModifier.default.get_modifiers l s).amplitude_modifier ∧
    (GestureModifier.default.get_modifiers (l + 1) s).force_modifier ≤
      (GestureModifier.default.get_modifiers l s).force_modifier := by
  have hf1 : (⌊s / 20⌋ : ℚ) ≤ s / 20 := Int.floor_le _
  have hf2 : s / 20 < ⌊s / 20⌋ + 1 := Int.lt_floor_add_one _
  have hm : pymod s 20 < 20 := by
    unfold pymod
    linarith
  have hsf : 0 ≤ 1 - pymod s 20 / 100 := by
    linarith
  interval_cases l <;>
    refine ⟨?_, ?_, ?_⟩ <;>
    simp [GestureModifier.get_modifiers, GestureModifier.default,
      painLevelOfInt, DEFAULT_SPEED_MAP, DEFAULT_AMPLITUDE_MAP,
      DEFAULT_FORCE_MAP] <;>
    nlinarith [hsf]

/-- Witness for C9 at level 2 and score 37. -/
theorem default_modifiers_monotone_witness :
    (GestureModifier.default.get_modifiers (2 + 1) 37).speed_modifier ≤
      (GestureModifier.default.get_modifiers 2 37).speed_modifier ∧
    (GestureModifier.default.get_modifiers (2 + 1) 37).amplitude_modifier ≤
      (GestureModifier.default.get_modifiers 2 37).amplitude_modifier ∧
    (GestureModifier.default.get_modifiers (2 + 1) 37).force_modifier ≤
      (GestureModifier.default.get_modifiers 2 37).force_modifier :=
  default_modifiers_monotone 2 37 (by decide) (by decide)

/-- C3 counterexample: a valid command whose confidence `0.0005` lies in
`[0,1]` but is not a multiple of `0.001`.  The encoder quantizes it to
`int(0.0005*1000) = 0`, so decoding the encoding yields confidence `0`,
not the original command. -/
def confQuantCmd : NachiCommand Nat :=
  { speed_override := 50
    motion_scale := 70
    force_limit := 60
    external_pause := false
    external_stop := false
    enable_motion := true
    timestamp := 123456
    source := "pain_feedback"
    confidence := 1/2000
    pain_level := 2 }

/-- C3 is false as stated: the 16-byte round trip loses this valid
command's confidence (`0.0005` decodes as `0`). -/
theorem nachi_roundtrip_confidence_counterexample :
    confQuantCmd.to_bytes.bind NachiCommand.from_bytes ≠ some confQuantCmd := by
  have hpy : pyInt ((1/2000 : ℚ) * 1000) = 0 := by
    simp only [pyInt]
    norm_num
  simp only [confQuantCmd, NachiCommand.to_bytes, hpy]
  rw [if_pos (by decide)]
  simp only [Option.some_bind, NachiCommand.from_bytes, ne_eq,
    Option.some.injEq, NachiCommand.mk.injEq]
  intro h
  have hc := h.2.2.2.2.2.2.2.2.1
  norm_num at hc

/-- C3 amended: for every valid command — percentages in `[0,100]`, pain
level in `[0,65535]`, any 64-bit timestamp pattern — whose `source` is
`"pain_feedback"` (the decoder always writes that constant) and whose
confidence is an integer multiple of `0.001` in `[0,1]` (the wire format
carries `int(confidence·1000)`), decoding the 16-byte encoding restores
the command field-for-field, the timestamp bit-exactly. -/
theorem nachi_binary_roundtrip (c : NachiCommand Nat)
    (hs0 : 0 ≤ c.speed_override) (hs1 : c.speed_override ≤ 100)
    (hm0 : 0 ≤ c.motion_scale) (hm1 : c.motion_scale ≤ 100)
    (hf0 : 0 ≤ c.force_limit) (hf1 : c.force_limit ≤ 100)
    (hp0 : 0 ≤ c.pain_level) (hp1 : c.pain_level ≤ 65535)
    (hts : c.timestamp < 2 ^ 64)
    (hsrc : c.source = "pain_feedback")
    (hconf : ∃ k : ℕ, k ≤ 1000 ∧ c.confidence = (k : ℚ) / 1000) :
    c.to_bytes.bind NachiCommand.from_bytes = some c := by
  obtain ⟨k, hk, hkc⟩ := hconf
  obtain ⟨sp, mo, fo, pa, st, en, ts, src, conf, pl⟩ := c
  simp only at hs0 hs1 hm0 hm1 hf0 hf1 hp0 hp1 hts hsrc hkc
  subst hsrc hkc
  have hconfEnc : pyInt ((k : ℚ) / 1000 * 1000) = (k : Int) := by
    rw [div_mul_cancel₀ _ (by norm_num : (1000 : ℚ) ≠ 0)]
    simp [pyInt, Int.floor_natCast]
  simp only [NachiCommand.to_bytes, hconfEnc]
  rw [if_pos ⟨hs0, by omega, hm0, by omega, hf0, by omega, hp0, hp1,
    by omega, by omega, hts⟩]
  simp only [Option.some_bind, NachiCommand.from_bytes, Option.some.injEq,
    NachiCommand.mk.injEq]
  have hflag1 : ∀ a b e : Bool,
      ((((if a = true then 1 else 0) + if b = true then 2 else 0) +
        if e = true then 4 else 0) &&& 1 != 0) = a := by decide
  have hflag2 : ∀ a b e : Bool,
      ((((if a = true then 1 else 0) + if b = true then 2 else 0) +
        if e = true then 4 else 0) &&& 2 != 0) = b := by decide
  have hflag4 : ∀ a b e : Bool,
      ((((if a = true then 1 else 0) + if b = true then 2 else 0) +
        if e = true then 4 else 0) &&& 4 != 0) = e := by decide
  refine ⟨by omega, by omega, by omega, hflag1 pa st en, hflag2 pa st en,
    hflag4 pa st en, by omega, trivial, ?_, by omega⟩
  · have ht : ((k : Int)).toNat = k := by omega
    have hsplit : k % 256 + 256 * (k / 256) = k := by omega
    have hq : ((k % 256 : ℕ) : ℚ) + 256 * ((k / 256 : ℕ) : ℚ) = (k : ℚ) := by
      have hcast := congrArg (fun n : ℕ => (n : ℚ)) hsplit
      push_cast at hcast
      linarith [hcast]
    rw [ht, hq]

/-- A concrete valid command (Python confidence `0.85 = 850/1000`) for
the round-trip witness. -/
def roundtripCmd : NachiCommand Nat :=
  { speed_override := 50
    motion_scale := 70
    force_limit := 60
    external_pause := false
    external_stop := false
    enable_motion := true
    timestamp := 1734355200123456789
    source := "pain_feedback"
    confidence := 850/1000
    pain_level := 2 }

/-- Witness for C3 (amended) at a concrete command. -/
theorem nachi_binary_roundtrip_witness :
    roundtripCmd.to_bytes.bind NachiCommand.from_bytes = some roundtripCmd :=
  nachi_binary_roundtrip roundtripCmd (by decide) (by decide) (by decide)
    (by decide) (by decide) (by decide) (by decide) (by decide) (by decide)
    rfl ⟨850, by decide, by simp [roundtripCmd]⟩

end Feedback
